import Mathlib

/-!
# Verification of the xeokit-sdk batching/quantization subsystem

Shallow embedding, in Lean 4, of the batching-layer subsystem of the
xeokit-sdk repository:

* `src/src/scene/bigModels/batching/batchingLayer.js` — the `BatchingLayer`
  class (`canCreatePortion`, `createPortion`, `finalize`, `setFlags`,
  `setColor`, `setPickID`), the module-level `quantizePositions` and the
  oct-encoding helpers (`transformAndOctEncodeNormals`, `octEncodeVec3`,
  `octDecodeVec2`, `dot`);
* `src/src/scene/geometry/Geometry.js` — `Geometry.init` primitive
  dispatch and the module-level `quantizeVec3` codec.

JavaScript numbers are embedded as exact rationals (`ℚ`); the one place
where IEEE special values matter (division by a zero extent, NaN flowing
into a `Uint16Array` store) is embedded by an explicit small model of the
JS special values (`JSVal`).  Byte arrays are embedded as functions
`ℕ → ℕ` holding the byte at each offset.  Code that throws is embedded
with `Except String`.
-/

namespace Xeokit

/-! ## Quantization codec

`quantizePositions` (batchingLayer.js, lines 647–674) maps a coordinate
`p` on an axis with bounds `[mn, mn+wid]` to
`Math.floor((p - mn) * (65525 / wid))`; `quantizeVec3` (Geometry.js)
does the same with the constant `65535`.  Both build a decode matrix
`translate(mn) × scale(wid / maxInt)`. -/

/-- Per-axis quantization of `quantizePositions` in batchingLayer.js:
`Math.floor((positions[i] - min) * (65525 / wid))` with
`wid = aabb[axis+3] - aabb[axis]`. -/
def quantizeAxis65525 (mn wid p : ℚ) : ℤ :=
  ⌊(p - mn) * (65525 / wid)⌋

/-- Per-axis quantization of `quantizeVec3` in Geometry.js:
`Math.floor((array[i] - min) * (65535 / (max - min)))`. -/
def quantizeAxis65535 (mn wid p : ℚ) : ℤ :=
  ⌊(p - mn) * (65535 / wid)⌋

/-- Modelled from the spec: math.js (`translationMat4v`, `scalingMat4v`,
`mulMat4`) is not under src/.  The spec defines the decode transform as a
4x4 matrix `translate(min) × scale(wid / maxInt)`; applied to a quantized
component on one axis this is the affine map `q * (wid / maxInt) + min`,
which is what we embed (for batchingLayer.js `maxInt = 65525`). -/
def decodeAxis65525 (mn wid : ℚ) (q : ℤ) : ℚ :=
  (q : ℚ) * (wid / 65525) + mn

/-- Modelled from the spec: the Geometry.js decode matrix
`translate(min) × scale((max-min)/65535)` applied per axis. -/
def decodeAxis65535 (mn wid : ℚ) (q : ℤ) : ℚ :=
  (q : ℚ) * (wid / 65535) + mn

/-- Generic one-step floor-quantization round-trip bound: for a positive
step count `M`, the decoded value undershoots the original by less than
one step `wid / M`. -/
theorem floor_quant_error (mn wid p : ℚ) (M : ℚ) (hM : 0 < M) (hw : 0 < wid) :
    0 ≤ (p - mn) - (⌊(p - mn) * (M / wid)⌋ : ℚ) * (wid / M) ∧
      (p - mn) - (⌊(p - mn) * (M / wid)⌋ : ℚ) * (wid / M) < wid / M := by
  set t : ℚ := p - mn with ht
  set m : ℚ := M / wid with hmdef
  have hm : (0 : ℚ) < m := div_pos hM hw
  have hne : m ≠ 0 := ne_of_gt hm
  have hinv : wid / M = m⁻¹ := by
    rw [hmdef, inv_div]
  have h1 : (⌊t * m⌋ : ℚ) ≤ t * m := Int.floor_le _
  have h2 : t * m < (⌊t * m⌋ : ℚ) + 1 := Int.lt_floor_add_one _
  have hpos : (0 : ℚ) < m⁻¹ := inv_pos.mpr hm
  have key : t * m * m⁻¹ = t := by
    rw [mul_assoc, mul_inv_cancel₀ hne, mul_one]
  rw [hinv]
  constructor
  · have := mul_le_mul_of_nonneg_right h1 (le_of_lt hpos)
    rw [key] at this
    linarith
  · have := mul_lt_mul_of_pos_right h2 hpos
    rw [key, add_mul, one_mul] at this
    linarith

/-! ## Render flags

`RENDER_FLAGS` is imported by batchingLayer.js from `../renderFlags.js`. -/

/-- Modelled from the spec: `renderFlags.js` is not under src/.  The spec
describes `flags` as a per-object bitmask encoding
visible/ghosted/highlighted/selected/clippable/edge-rendering state; we
give the six masks distinct single bits. -/
def RENDER_FLAGS_VISIBLE : ℕ := 1

/-- Modelled from the spec: see `RENDER_FLAGS_VISIBLE`. -/
def RENDER_FLAGS_GHOSTED : ℕ := 2

/-- Modelled from the spec: see `RENDER_FLAGS_VISIBLE`. -/
def RENDER_FLAGS_HIGHLIGHTED : ℕ := 4

/-- Modelled from the spec: see `RENDER_FLAGS_VISIBLE`. -/
def RENDER_FLAGS_SELECTED : ℕ := 8

/-- Modelled from the spec: see `RENDER_FLAGS_VISIBLE`. -/
def RENDER_FLAGS_CLIPPABLE : ℕ := 16

/-- Modelled from the spec: see `RENDER_FLAGS_VISIBLE`. -/
def RENDER_FLAGS_EDGES : ℕ := 32

/-- `!!(flags & RENDER_FLAGS.X) ? 255 : 0` (batchingLayer.js lines
185–190 and 363–366). -/
def flagByte (flags bit : ℕ) : ℕ :=
  if flags &&& bit ≠ 0 then 255 else 0

/-! ## Byte-array helpers -/

/-- Write the 4-byte pattern `(v0,v1,v2,v3)` over bytes
`[start, start+len)` of `a`: embeds the source loops
`for (i = start; i < start + len; i += 4) { a[i]=v0; a[i+1]=v1; a[i+2]=v2; a[i+3]=v3 }`
(`len` is always a multiple of 4 at the call sites, so the pattern index
is the offset mod 4). -/
def writePat4 (a : ℕ → ℕ) (start len v0 v1 v2 v3 : ℕ) : ℕ → ℕ :=
  fun j =>
    if start ≤ j ∧ j < start + len then
      match (j - start) % 4 with
      | 0 => v0
      | 1 => v1
      | 2 => v2
      | _ => v3
    else a j

/-- The scratch pattern `uint8Vec4Temp` holds after the fill loops of
`setFlags`/`setColor` (batchingLayer.js lines 367–372 and 389–394): byte
`i` of the slice is the pattern component `i % 4`. -/
def pat4 (v0 v1 v2 v3 : ℕ) : ℕ → ℕ :=
  fun i =>
    match i % 4 with
    | 0 => v0
    | 1 => v1
    | 2 => v2
    | _ => v3

/-- Modelled from the spec: `ArrayBuf.setData(data, offset, length)`
(webgl/ArrayBuf.js is not under src/) issues a partial buffer update:
it writes `data[0..length)` at byte offset `offset` of the existing
buffer store, leaving every other byte unchanged (no full re-upload, no
reallocation). -/
def setData (buf : ℕ → ℕ) (data : ℕ → ℕ) (off len : ℕ) : ℕ → ℕ :=
  fun j => if off ≤ j ∧ j < off + len then data (j - off) else buf j

/-! ## The buffer arena and the layer state

The arena (`cfg.buffer`, obtained from `getBatchingBuffer` in
BigModel.js, which is not under src/) holds the scratch arrays and their
running lengths.  Modelled from the spec: the scratch arrays are
pre-allocated typed arrays sized to the layer's capacity ceiling
(`maxVerts * 3` position components; byte arrays hold 4 bytes per
vertex), zero-initialized; a `TypedArray.set` past the end of the
allocation throws a `RangeError`.

The contents of `positions`, `normals`, `indices` and `edgeIndices` are
not read by any property below, so the arena tracks only their running
lengths; the quantization and oct-encoding of contents are embedded
standalone (`quantizeAxis65525`, `octEncodeVec3`, …).  The byte contents
of `flags`, `colors` and `pickColors` are tracked in full. -/

structure BBuffer where
  maxVerts : ℕ
  lenPositions : ℕ
  lenNormals : ℕ
  lenColors : ℕ
  lenFlags : ℕ
  lenPickColors : ℕ
  lenIndices : ℕ
  lenEdgeIndices : ℕ
  /-- byte contents of the `flags` scratch array -/
  flags : ℕ → ℕ
  /-- byte contents of the `colors` scratch array -/
  colors : ℕ → ℕ
  /-- byte contents of the `pickColors` scratch array -/
  pickColors : ℕ → ℕ

/-- A GPU buffer uploaded by `finalize` (an `ArrayBuf`): its length and
its byte contents. -/
structure GpuBuf where
  len : ℕ
  data : ℕ → ℕ

/-- The arguments of one `createPortion` call (batchingLayer.js line
129).  `matrix` and `aabb` affect only the untracked positions contents
and the AABBs, so they are omitted from the embedding; `flags` and
`color` are optional exactly as in the source (`flags !== undefined`,
`if (color)`). -/
structure CreateOp where
  positions : List ℚ
  normals : Option (List ℚ)
  indices : Option (List ℕ)
  edgeIndices : Option (List ℕ)
  flags : Option ℕ
  color : Option (ℕ × ℕ × ℕ × ℕ)
  pickColor : ℕ × ℕ × ℕ × ℕ

/-- The state of one `BatchingLayer`.  `portions` stores the
`(vertexBase, vertexCount)` pairs (the source keeps them in a flat array
`_portions`, pushing two numbers per portion; a portion id is the flat
length / 2, which is the index into our list of pairs).  The module
global `currentBatchingLayer` is embedded for a single-layer run as the
flag `isPacking` (`currentBatchingLayer === this`); with one layer the
"Already packing another BatchingLayer" throw can never fire.  `errors`
collects messages reported through `this.error` (modelled from the spec:
the Component-style error-reporting channel is not under src/; it
records the message and returns). -/
structure BLayer where
  buffer : Option BBuffer
  numObjects : ℕ
  numVisibleObjects : ℕ
  numTransparentObjects : ℕ
  numGhostedObjects : ℕ
  numSelectedObjects : ℕ
  numHighlightedObjects : ℕ
  numEdgesObjects : ℕ
  portions : List (ℕ × ℕ)
  finalized : Bool
  isPacking : Bool
  positionsBufLen : Option ℕ
  normalsBufLen : Option ℕ
  colorsBuf : Option GpuBuf
  flagsBuf : Option GpuBuf
  pickColorsBuf : Option GpuBuf
  indicesBufLen : Option ℕ
  edgeIndicesBufLen : Option ℕ
  errors : List String

/-- A fresh arena of capacity `maxVerts` (scratch typed arrays are
zero-initialized). -/
def BBuffer.init (maxVerts : ℕ) : BBuffer :=
  { maxVerts := maxVerts
    lenPositions := 0, lenNormals := 0, lenColors := 0, lenFlags := 0
    lenPickColors := 0, lenIndices := 0, lenEdgeIndices := 0
    flags := fun _ => 0, colors := fun _ => 0, pickColors := fun _ => 0 }

/-- The `BatchingLayer` constructor's state initialization (lines
68–96): all counters zero, empty portion list, not finalized, all GPU
buffer slots null. -/
def BLayer.init (maxVerts : ℕ) : BLayer :=
  { buffer := some (BBuffer.init maxVerts)
    numObjects := 0, numVisibleObjects := 0, numTransparentObjects := 0
    numGhostedObjects := 0, numSelectedObjects := 0
    numHighlightedObjects := 0, numEdgesObjects := 0
    portions := [], finalized := false, isPacking := false
    positionsBufLen := none, normalsBufLen := none
    colorsBuf := none, flagsBuf := none, pickColorsBuf := none
    indicesBufLen := none, edgeIndicesBufLen := none
    errors := [] }

/-- `canCreatePortion(lenPositions)` (lines 105–110).  If the layer is
finalized it throws `"Already finalized"`.  Otherwise the JS expression
`(!this._finalized && this._buffer.lenPositions + lenPositions) < (this._buffer.maxVerts * 3)`
evaluates (with `!finalized === true`, so `&&` yields its right operand)
to `lenPositions + lenPositions' < maxVerts * 3`.  The `none` buffer
case is unreachable: the buffer is cleared only when `finalized` is set. -/
def BLayer.canCreatePortion (L : BLayer) (lenPositions : ℕ) : Except String Bool :=
  if L.finalized then .error "Already finalized"
  else
    match L.buffer with
    | none => .error "TypeError: buffer is null"
    | some b => .ok (decide (b.lenPositions + lenPositions < b.maxVerts * 3))

/-- `createPortion(positions, normals, indices, edgeIndices, flags, color,
matrix, aabb, pickColor)` (lines 129–263), returning the new portion id.

Guards, in source order: line 130 throws `"Already finalized"` when the
layer is finalized; line 133 — the branch whose message says the layer is
full — re-tests `this._finalized` (not the capacity), so it is embedded
verbatim as a second test of the same condition; the concurrent-writer
check never fires in a single-layer run (see `BLayer.isPacking`).  The
positions append `buffer.positions.set(positions, buffer.lenPositions)`
throws a `RangeError` when it would run past the allocation (modelled
from the spec: arrays sized to the `maxVerts * 3` ceiling), before any
state is mutated.  Flag bytes `(visible, ghosted, highlighted, clippable)`
and color/pick-color bytes are broadcast per vertex; the counters are
incremented from the call's `flags`/`color` arguments (lines 199–213,
231–233). -/
def BLayer.createPortion (L : BLayer) (op : CreateOp) : Except String (BLayer × ℕ) :=
  if L.finalized then .error "Already finalized"
  else if L.finalized then .error "BatchingLayer full - check first with canCreatePortion()"
  else
    match L.buffer with
    | none => .error "TypeError: buffer is null"
    | some buffer =>
      let positionsIndex := buffer.lenPositions
      let vertsIndex := positionsIndex / 3
      let numVerts := op.positions.length / 3
      let lenPositions := op.positions.length
      if buffer.lenPositions + lenPositions > buffer.maxVerts * 3 then
        .error "RangeError: offset is out of bounds"
      else
        let b1 : BBuffer := { buffer with lenPositions := buffer.lenPositions + lenPositions }
        let b2 : BBuffer :=
          match op.normals with
          | some ns => { b1 with lenNormals := b1.lenNormals + ns.length }
          | none => b1
        let stage3 : BBuffer × BLayer :=
          match op.flags with
          | some f =>
            let lenFlags := numVerts * 4
            let visible := flagByte f RENDER_FLAGS_VISIBLE
            let ghosted := flagByte f RENDER_FLAGS_GHOSTED
            let highlighted := flagByte f RENDER_FLAGS_HIGHLIGHTED
            let selected := flagByte f RENDER_FLAGS_SELECTED
            let clippable := flagByte f RENDER_FLAGS_CLIPPABLE
            let edges := flagByte f RENDER_FLAGS_EDGES
            (⟨{ b2 with
                flags := writePat4 b2.flags b2.lenFlags lenFlags visible ghosted highlighted clippable
                lenFlags := b2.lenFlags + lenFlags },
              { L with
                numVisibleObjects := L.numVisibleObjects + (if visible ≠ 0 then 1 else 0)
                numGhostedObjects := L.numGhostedObjects + (if ghosted ≠ 0 then 1 else 0)
                numHighlightedObjects := L.numHighlightedObjects + (if highlighted ≠ 0 then 1 else 0)
                numSelectedObjects := L.numSelectedObjects + (if selected ≠ 0 then 1 else 0)
                numEdgesObjects := L.numEdgesObjects + (if edges ≠ 0 then 1 else 0) }⟩ : BBuffer × BLayer)
          | none => (b2, L)
        let b3 := stage3.1
        let L3 := stage3.2
        let stage4 : BBuffer × BLayer :=
          match op.color with
          | some c =>
            let lenColors := numVerts * 4
            (⟨{ b3 with
                colors := writePat4 b3.colors b3.lenColors lenColors c.1 c.2.1 c.2.2.1 c.2.2.2
                lenColors := b3.lenColors + lenColors },
              { L3 with
                numTransparentObjects :=
                  L3.numTransparentObjects + (if c.2.2.2 < 255 then 1 else 0) }⟩ : BBuffer × BLayer)
          | none => (b3, L3)
        let b4 := stage4.1
        let L4 := stage4.2
        let b5 : BBuffer :=
          match op.indices with
          | some ix => { b4 with lenIndices := b4.lenIndices + ix.length }
          | none => b4
        let b6 : BBuffer :=
          match op.edgeIndices with
          | some ex => { b5 with lenEdgeIndices := b5.lenEdgeIndices + ex.length }
          | none => b5
        let lenPickColors := numVerts * 4
        let b7 : BBuffer :=
          { b6 with
            pickColors := writePat4 b6.pickColors b6.lenPickColors lenPickColors
              op.pickColor.1 op.pickColor.2.1 op.pickColor.2.2.1 op.pickColor.2.2.2
            lenPickColors := b6.lenPickColors + lenPickColors }
        let portionId := L.portions.length
        .ok (⟨{ L4 with
                buffer := some b7
                portions := L.portions ++ [(vertsIndex, numVerts)]
                numObjects := L.numObjects + 1
                isPacking := true }, portionId⟩)

/-- `finalize()` (lines 269–337).  A second call reports
`"Already finalized"` through the error channel and returns before
touching any state.  Otherwise each non-empty scratch slice `[0, len)`
is uploaded as a GPU buffer (`ArrayBuf(gl, …, buffer.x.slice(0, lenX),
lenX, …)`), the running lengths are reset, the module-level current
layer is cleared, the arena reference is dropped and the layer is marked
finalized.  (The positions are first passed through `quantizePositions`,
embedded standalone as `quantizeAxis65525`; the uploaded positions
buffer's contents are not read by any property below, so only its length
is kept.) -/
def BLayer.finalize (L : BLayer) : BLayer :=
  if L.finalized then { L with errors := L.errors ++ ["Already finalized"] }
  else
    match L.buffer with
    | none => L
    | some buffer =>
      { L with
        positionsBufLen :=
          if 0 < buffer.lenPositions then some buffer.lenPositions else L.positionsBufLen
        normalsBufLen :=
          if 0 < buffer.lenNormals then some buffer.lenNormals else L.normalsBufLen
        colorsBuf :=
          if 0 < buffer.lenColors then
            some ⟨buffer.lenColors, fun j => if j < buffer.lenColors then buffer.colors j else 0⟩
          else L.colorsBuf
        flagsBuf :=
          if 0 < buffer.lenFlags then
            some ⟨buffer.lenFlags, fun j => if j < buffer.lenFlags then buffer.flags j else 0⟩
          else L.flagsBuf
        pickColorsBuf :=
          if 0 < buffer.lenPickColors then
            some ⟨buffer.lenPickColors, fun j => if j < buffer.lenPickColors then buffer.pickColors j else 0⟩
          else L.pickColorsBuf
        indicesBufLen :=
          if 0 < buffer.lenIndices then some buffer.lenIndices else L.indicesBufLen
        edgeIndicesBufLen :=
          if 0 < buffer.lenEdgeIndices then some buffer.lenEdgeIndices else L.edgeIndicesBufLen
        isPacking := false
        buffer := none
        finalized := true }

/-- `setFlags(portionId, flags)` (lines 354–374): requires the finalized
state; reads the portion's `(vertexBase, numVerts)`, fills the scratch
with the per-vertex 4-byte pattern `(visible, ghosted, highlighted,
clippable)` over `numVerts * 4` bytes, and issues one partial update of
the flags buffer at byte offset `vertexBase * 4`.  No aggregate counter
is touched. -/
def BLayer.setFlags (L : BLayer) (portionId flags : ℕ) : Except String BLayer :=
  if L.finalized then
    match L.portions.get? portionId, L.flagsBuf with
    | some p, some gb =>
      let vertexBase := p.1
      let numVerts := p.2
      let firstFlag := vertexBase * 4
      let lenFlags := numVerts * 4
      let visible := flagByte flags RENDER_FLAGS_VISIBLE
      let ghosted := flagByte flags RENDER_FLAGS_GHOSTED
      let highlighted := flagByte flags RENDER_FLAGS_HIGHLIGHTED
      let clippable := flagByte flags RENDER_FLAGS_CLIPPABLE
      .ok { L with
        flagsBuf := some ⟨gb.len,
          setData gb.data (pat4 visible ghosted highlighted clippable) firstFlag lenFlags⟩ }
    | _, _ => .error "TypeError: invalid portion or buffer"
  else .error "Not finalized"

/-- `setColor(portionId, color)` (lines 376–396): like `setFlags` with
the 4-byte pattern `(r, g, b, a)`, patching the colors buffer.  No
aggregate counter is touched. -/
def BLayer.setColor (L : BLayer) (portionId : ℕ) (color : ℕ × ℕ × ℕ × ℕ) :
    Except String BLayer :=
  if L.finalized then
    match L.portions.get? portionId, L.colorsBuf with
    | some p, some gb =>
      let vertexBase := p.1
      let numVerts := p.2
      let firstColor := vertexBase * 4
      let lenColors := numVerts * 4
      .ok { L with
        colorsBuf := some ⟨gb.len,
          setData gb.data (pat4 color.1 color.2.1 color.2.2.1 color.2.2.2) firstColor lenColors⟩ }
    | _, _ => .error "TypeError: invalid portion or buffer"
  else .error "Not finalized"

/-- `setPickID(portionId, pickId)` (lines 339–352): requires the
finalized state.  The source computes `firstFlag = vertexBase * 4` but
`lenPickColors = numVerts * 2`, fills only the even offsets of the
scratch below `numVerts * 2` (`for (i = 0; i < lenPickColors; i += 2)
uint8Vec4Temp[i] = pickId`) — odd offsets keep whatever a previous
mutator left in the module-level scratch, passed here as `scratch` —
and patches `numVerts * 2` bytes of the pick-colors buffer. -/
def BLayer.setPickID (L : BLayer) (scratch : ℕ → ℕ) (portionId pickId : ℕ) :
    Except String BLayer :=
  if L.finalized then
    match L.portions.get? portionId, L.pickColorsBuf with
    | some p, some gb =>
      let vertexBase := p.1
      let numVerts := p.2
      let firstFlag := vertexBase * 4
      let lenPickColors := numVerts * 2
      .ok { L with
        pickColorsBuf := some ⟨gb.len,
          setData gb.data (fun i => if i % 2 = 0 then pickId else scratch i)
            firstFlag lenPickColors⟩ }
    | _, _ => .error "TypeError: invalid portion or buffer"
  else .error "Not finalized"

/-- Run a sequence of `createPortion` calls (a throw aborts the
sequence, as in JS). -/
def runCreates (L : BLayer) : List CreateOp → Except String BLayer
  | [] => .ok L
  | op :: ops =>
    match L.createPortion op with
    | .error e => .error e
    | .ok res => runCreates res.1 ops

/-- 1 when the call's `flags` argument was supplied and has `bit` set:
the per-portion contribution of one `createPortion` call to the flag
counter for `bit`. -/
def opFlagInc (op : CreateOp) (bit : ℕ) : ℕ :=
  match op.flags with
  | some f => if f &&& bit ≠ 0 then 1 else 0
  | none => 0

/-- 1 when the call's `color` argument was supplied with alpha < 255:
the per-portion contribution to the transparent counter. -/
def opTranspInc (op : CreateOp) : ℕ :=
  match op.color with
  | some c => if c.2.2.2 < 255 then 1 else 0
  | none => 0

/-- Summing per-portion flag state directly over a sequence of
`createPortion` calls (each call creates one portion whose current flag
state is the call's `flags` argument). -/
def countFlag (ops : List CreateOp) (bit : ℕ) : ℕ :=
  (ops.map (opFlagInc · bit)).sum

/-- Summing per-portion transparency state directly. -/
def countTransparent (ops : List CreateOp) : ℕ :=
  (ops.map opTranspInc).sum

/-- One successful `createPortion` call advances each aggregate counter
by exactly that call's per-portion contribution. -/
theorem createPortion_counts (L : BLayer) (op : CreateOp) (L' : BLayer) (pid : ℕ)
    (h : L.createPortion op = .ok (L', pid)) :
    L'.numObjects = L.numObjects + 1 ∧
    L'.numVisibleObjects = L.numVisibleObjects + opFlagInc op RENDER_FLAGS_VISIBLE ∧
    L'.numGhostedObjects = L.numGhostedObjects + opFlagInc op RENDER_FLAGS_GHOSTED ∧
    L'.numHighlightedObjects = L.numHighlightedObjects + opFlagInc op RENDER_FLAGS_HIGHLIGHTED ∧
    L'.numSelectedObjects = L.numSelectedObjects + opFlagInc op RENDER_FLAGS_SELECTED ∧
    L'.numEdgesObjects = L.numEdgesObjects + opFlagInc op RENDER_FLAGS_EDGES ∧
    L'.numTransparentObjects = L.numTransparentObjects + opTranspInc op ∧
    L'.finalized = L.finalized := by
  cases hf : L.finalized with
  | true => simp [BLayer.createPortion, hf] at h
  | false =>
    cases hb : L.buffer with
    | none => simp [BLayer.createPortion, hf, hb] at h
    | some buffer =>
      by_cases hc : buffer.lenPositions + op.positions.length > buffer.maxVerts * 3
      · simp [BLayer.createPortion, hf, hb, hc] at h
      · cases hof : op.flags with
        | none =>
          cases hoc : op.color with
          | none =>
            simp [BLayer.createPortion, hf, hb, hc, hof, hoc] at h
            obtain ⟨rfl, -⟩ := h
            simp [opFlagInc, opTranspInc, hof, hoc]
          | some c =>
            simp [BLayer.createPortion, hf, hb, hc, hof, hoc] at h
            obtain ⟨rfl, -⟩ := h
            simp [opFlagInc, opTranspInc, hof, hoc]
        | some f =>
          cases hoc : op.color with
          | none =>
            simp [BLayer.createPortion, hf, hb, hc, hof, hoc] at h
            obtain ⟨rfl, -⟩ := h
            simp [opFlagInc, opTranspInc, hof, hoc, flagByte]
          | some c =>
            simp [BLayer.createPortion, hf, hb, hc, hof, hoc] at h
            obtain ⟨rfl, -⟩ := h
            simp [opFlagInc, opTranspInc, hof, hoc, flagByte]

/-- Counter consistency over a whole sequence of `createPortion` calls,
generalized over the starting layer. -/
theorem runCreates_counts : ∀ (ops : List CreateOp) (L L' : BLayer),
    runCreates L ops = .ok L' →
    L'.numObjects = L.numObjects + ops.length ∧
    L'.numVisibleObjects = L.numVisibleObjects + countFlag ops RENDER_FLAGS_VISIBLE ∧
    L'.numGhostedObjects = L.numGhostedObjects + countFlag ops RENDER_FLAGS_GHOSTED ∧
    L'.numHighlightedObjects = L.numHighlightedObjects + countFlag ops RENDER_FLAGS_HIGHLIGHTED ∧
    L'.numSelectedObjects = L.numSelectedObjects + countFlag ops RENDER_FLAGS_SELECTED ∧
    L'.numEdgesObjects = L.numEdgesObjects + countFlag ops RENDER_FLAGS_EDGES ∧
    L'.numTransparentObjects = L.numTransparentObjects + countTransparent ops ∧
    L'.finalized = L.finalized
  | [], L, L', h => by
    simp [runCreates] at h
    subst h
    simp [countFlag, countTransparent]
  | op :: ops, L, L', h => by
    rw [runCreates] at h
    cases hstep : L.createPortion op with
    | error e => rw [hstep] at h; exact absurd h (by simp)
    | ok res =>
      rw [hstep] at h
      obtain ⟨h1, h2, h3, h4, h5, h6, h7, h8⟩ :=
        createPortion_counts L op res.1 res.2 (by rw [hstep])
      obtain ⟨g1, g2, g3, g4, g5, g6, g7, g8⟩ := runCreates_counts ops res.1 L' h
      refine ⟨?_, ?_, ?_, ?_, ?_, ?_, ?_, ?_⟩ <;>
        simp [countFlag, countTransparent, *] <;> omega

/-! ## Claim C1 — counter consistency -/

/-- A portion created invisible (flags = 0, opaque color): input of the
C1 counterexample run. -/
def c1op : CreateOp :=
  { positions := [0, 0, 0], normals := none, indices := none, edgeIndices := none
    flags := some 0, color := some (0, 0, 0, 255), pickColor := (0, 0, 0, 0) }

/-- The C1 counterexample run: create one invisible portion, finalize,
then `setFlags(0, VISIBLE)`. -/
def c1pipeline : Except String BLayer :=
  match (BLayer.init 100).createPortion c1op with
  | .ok res => (res.1.finalize).setFlags 0 RENDER_FLAGS_VISIBLE
  | .error e => .error e

/-- The layer the C1 counterexample run produces. -/
def c1layer : BLayer :=
  match c1pipeline with
  | .ok L => L
  | .error _ => BLayer.init 0

/-- C1: counterexample.  After `createPortion` with flags 0 (invisible)
followed by `finalize` and `setFlags(0, VISIBLE)`, the portion's current
per-portion state has the visible flag set (its flag byte is 255), yet
`numVisibleObjects` is still 0, not 1: `setFlags` performs the flag
write without updating any aggregate counter. -/
theorem c1_counters_stale_after_setFlags :
    c1pipeline = .ok c1layer ∧
    c1layer.portions = [(0, 1)] ∧
    (c1layer.flagsBuf.map fun gb => gb.data 0) = some 255 ∧
    c1layer.numVisibleObjects = 0 := by
  exact ⟨rfl, rfl, rfl, rfl⟩

/-- C1 (amended): after any sequence of successful `createPortion` calls
(and no `setFlags`), every aggregate counter equals the sum of the
corresponding per-portion state over the created portions — the count of
portions whose supplied flags have the corresponding bit set, and for
transparency the count of portions whose supplied alpha is < 255.
`setFlags` does not update the counters (see the counterexample), so the
equality is guaranteed only for creation-time state. -/
theorem c1_createPortion_counter_consistency (mv : ℕ) (ops : List CreateOp) (L : BLayer)
    (h : runCreates (BLayer.init mv) ops = .ok L) :
    L.numObjects = ops.length ∧
    L.numVisibleObjects = countFlag ops RENDER_FLAGS_VISIBLE ∧
    L.numGhostedObjects = countFlag ops RENDER_FLAGS_GHOSTED ∧
    L.numHighlightedObjects = countFlag ops RENDER_FLAGS_HIGHLIGHTED ∧
    L.numSelectedObjects = countFlag ops RENDER_FLAGS_SELECTED ∧
    L.numEdgesObjects = countFlag ops RENDER_FLAGS_EDGES ∧
    L.numTransparentObjects = countTransparent ops := by
  obtain ⟨g1, g2, g3, g4, g5, g6, g7, -⟩ := runCreates_counts ops _ L h
  simp only [BLayer.init] at g1 g2 g3 g4 g5 g6 g7
  omega

/-- The layer built by the C1 witness run (one invisible portion). -/
def c1wlayer : BLayer :=
  match runCreates (BLayer.init 100) [c1op] with
  | .ok L => L
  | .error _ => BLayer.init 0

/-- Witness for the amended C1 theorem at a concrete input: one
`createPortion` call with flags 0 and alpha 255 yields counters
(1 object, 0 visible, 0 ghosted, 0 highlighted, 0 selected, 0 edges,
0 transparent). -/
theorem c1_counter_consistency_witness :
    c1wlayer.numObjects = 1 ∧
    c1wlayer.numVisibleObjects = 0 ∧
    c1wlayer.numGhostedObjects = 0 ∧
    c1wlayer.numHighlightedObjects = 0 ∧
    c1wlayer.numSelectedObjects = 0 ∧
    c1wlayer.numEdgesObjects = 0 ∧
    c1wlayer.numTransparentObjects = 0 := by
  simpa using c1_createPortion_counter_consistency 100 [c1op] c1wlayer rfl

/-! ## Claims C4 and C10 — state-machine guards -/

/-- C4: calling `finalize` on an already-finalized layer reports
"Already finalized" through the error channel and changes nothing else:
the result is the same layer with only the error list extended (all
counters, portions, GPU buffers and the finalized flag are untouched, as
the record equality states). -/
theorem c4_finalize_twice_fails_cleanly (L : BLayer) (h : L.finalized = true) :
    L.finalize = { L with errors := L.errors ++ ["Already finalized"] } := by
  simp [BLayer.finalize, h]

/-- Witness for C4: a freshly finalized empty layer, finalized again,
equals itself with just the "Already finalized" error appended. -/
theorem c4_finalize_twice_witness :
    ((BLayer.init 1).finalize).finalize
      = { (BLayer.init 1).finalize with
          errors := ((BLayer.init 1).finalize).errors ++ ["Already finalized"] } :=
  c4_finalize_twice_fails_cleanly ((BLayer.init 1).finalize) rfl

/-- C10: on a finalized layer `canCreatePortion` does not return a
boolean at all — it throws "Already finalized". -/
theorem c10_canCreatePortion_throws_after_finalize (L : BLayer) (n : ℕ)
    (h : L.finalized = true) :
    L.canCreatePortion n = .error "Already finalized" := by
  simp [BLayer.canCreatePortion, h]

/-- Witness for C10 at a concrete finalized layer. -/
theorem c10_canCreatePortion_throws_witness :
    ((BLayer.init 1).finalize).canCreatePortion 3 = .error "Already finalized" :=
  c10_canCreatePortion_throws_after_finalize ((BLayer.init 1).finalize) 3 rfl

/-! ## Claim C2 — capacity guard -/

/-- Two vertices' worth of positions, no flags or color: input of the C2
run against a layer whose ceiling is `maxVerts * 3 = 6` position
components. -/
def c2op : CreateOp :=
  { positions := [0, 0, 0, 1, 1, 1], normals := none, indices := none, edgeIndices := none
    flags := none, color := none, pickColor := (0, 0, 0, 0) }

/-- C2: the capacity guard is not honored.  With `maxVerts = 2` (ceiling
6 position components) and an append of 6 components,
`canCreatePortion(6)` returns `false` (`0 + 6 < 6` fails), yet the
subsequent `createPortion` is accepted — it returns portion id 0 and
fills the arena to the ceiling (`lenPositions = 6`) without any throw:
the "BatchingLayer full - check first with canCreatePortion()" branch
re-tests `_finalized` instead of the capacity and can never fire. -/
theorem c2_capacity_guard_not_honored :
    (BLayer.init 2).canCreatePortion 6 = .ok false ∧
    ((BLayer.init 2).createPortion c2op).map
        (fun res => (res.1.buffer.map BBuffer.lenPositions, res.2))
      = .ok (some 6, 0) := by
  exact ⟨rfl, rfl⟩

/-! ## Claim C3 — per-portion mutators' byte ranges -/

/-- One 3-vertex portion with pick color bytes (9,9,9,9): input of the
C3 run. -/
def c3op : CreateOp :=
  { positions := [0, 0, 0, 1, 1, 1, 2, 2, 2], normals := none
    indices := none, edgeIndices := none
    flags := none, color := none, pickColor := (9, 9, 9, 9) }

/-- The C3 layer: one portion `(0, 3)`, finalized, whose pick-colors
buffer holds byte 9 at each of its 12 bytes. -/
def c3layer : BLayer :=
  match (BLayer.init 10).createPortion c3op with
  | .ok res => res.1.finalize
  | .error _ => BLayer.init 0

/-- C3: `setPickID` does not broadcast across the portion's
`vertexCount * 4`-byte sub-range.  For the 3-vertex portion `(0, 3)` the
claim requires 12 bytes starting at byte 0 to receive the new value; the
call patches only `numVerts * 2 = 6` bytes, so byte 0 becomes the new
pick id (7) while bytes 8 and 10 — vertex 2's bytes, inside the claimed
sub-range — still hold the old value 9, whatever the reusable scratch
contained. -/
theorem c3_setPickID_covers_half_range (scratch : ℕ → ℕ) :
    (c3layer.setPickID scratch 0 7).map
        (fun L => L.pickColorsBuf.map fun gb => (gb.data 0, gb.data 8, gb.data 10))
      = .ok (some (7, 9, 9)) := by
  rfl

/-! ## Claim C5 — portion isolation

The layout invariant of the portion list: every portion's vertex range
fits below the running position count, and earlier portions end at or
before later portions' bases (so distinct portions' vertex ranges — and
hence their 4-bytes-per-vertex sub-ranges — are disjoint). -/

/-- Portion-list layout invariant relative to the arena's
`lenPositions`. -/
def PortionsOk (ps : List (ℕ × ℕ)) (len : ℕ) : Prop :=
  (∀ i p, ps.get? i = some p → (p.1 + p.2) * 3 ≤ len) ∧
  (∀ i j p q, i < j → ps.get? i = some p → ps.get? j = some q → p.1 + p.2 ≤ q.1)

theorem portionsOk_nil (len : ℕ) : PortionsOk [] len := by
  constructor
  · intro i p hip
    simp at hip
  · intro i j p q _ hip
    simp at hip

/-- Appending the portion `(len / 3, addLen / 3)` (what `createPortion`
records when `lenPositions = len` and the op brings `addLen` position
components) preserves the layout invariant for the grown length. -/
theorem portionsOk_append (ps : List (ℕ × ℕ)) (len addLen : ℕ)
    (h : PortionsOk ps len) :
    PortionsOk (ps ++ [(len / 3, addLen / 3)]) (len + addLen) := by
  obtain ⟨h1, h2⟩ := h
  have hlen : ∀ i p, (ps ++ [(len / 3, addLen / 3)]).get? i = some p →
      (i < ps.length ∧ ps.get? i = some p) ∨ (i = ps.length ∧ p = (len / 3, addLen / 3)) := by
    intro i p hip
    rcases Nat.lt_trichotomy i ps.length with hi | hi | hi
    · left
      exact ⟨hi, by rwa [List.get?_append hi] at hip⟩
    · right
      refine ⟨hi, ?_⟩
      rw [hi, List.get?_concat_length] at hip
      exact (Option.some.inj hip).symm
    · exfalso
      have : (ps ++ [(len / 3, addLen / 3)]).get? i = none := by
        apply List.get?_eq_none.mpr
        simp
        omega
      rw [this] at hip
      exact Option.noConfusion hip
  constructor
  · intro i p hip
    rcases hlen i p hip with ⟨-, hold⟩ | ⟨-, rfl⟩
    · exact le_trans (h1 i p hold) (Nat.le_add_right _ _)
    · have ha : len / 3 * 3 ≤ len := Nat.div_mul_le_self len 3
      have hb : addLen / 3 * 3 ≤ addLen := Nat.div_mul_le_self addLen 3
      calc (len / 3 + addLen / 3) * 3 = len / 3 * 3 + addLen / 3 * 3 := by ring
        _ ≤ len + addLen := by omega
  · intro i j p q hij hip hjq
    rcases hlen j q hjq with ⟨hj, hold⟩ | ⟨hj, rfl⟩
    · have hi : i < ps.length := lt_trans hij hj
      rw [List.get?_append hi] at hip
      exact h2 i j p q hij hip hold
    · have hi : i < ps.length := by omega
      rw [List.get?_append hi] at hip
      have := h1 i p hip
      exact Nat.le_div_iff_mul_le (by norm_num) |>.mpr this

/-- Two distinct portions of a layout-invariant list have one ending at
or before the other's base. -/
theorem portionsOk_disjoint (ps : List (ℕ × ℕ)) (len : ℕ) (h : PortionsOk ps len)
    (A B : ℕ) (pA pB : ℕ × ℕ) (hA : ps.get? A = some pA) (hB : ps.get? B = some pB)
    (hAB : A ≠ B) :
    pA.1 + pA.2 ≤ pB.1 ∨ pB.1 + pB.2 ≤ pA.1 := by
  rcases Nat.lt_or_ge A B with hlt | hge
  · exact Or.inl (h.2 A B pA pB hlt hA hB)
  · have hlt : B < A := by omega
    exact Or.inr (h.2 B A pB pA hlt hB hA)

/-- Inversion of a successful `createPortion`: the arena's position
count grows by the op's component count, the new portion
`(lenPositions / 3, length / 3)` is appended, and the finalized flag is
untouched. -/
theorem createPortion_portions (L : BLayer) (op : CreateOp) (L' : BLayer) (pid : ℕ)
    (h : L.createPortion op = .ok (L', pid)) :
    ∃ b b', L.buffer = some b ∧ L'.buffer = some b' ∧
      b'.lenPositions = b.lenPositions + op.positions.length ∧
      L'.portions = L.portions ++ [(b.lenPositions / 3, op.positions.length / 3)] := by
  obtain ⟨pos, nrm, ind, edg, flg, col, pk⟩ := op
  cases hf : L.finalized with
  | true => simp [BLayer.createPortion, hf] at h
  | false =>
    cases hb : L.buffer with
    | none => simp [BLayer.createPortion, hf, hb] at h
    | some buffer =>
      by_cases hc : buffer.lenPositions + pos.length > buffer.maxVerts * 3
      · simp [BLayer.createPortion, hf, hb, hc] at h
      · cases nrm <;> cases ind <;> cases edg <;> cases flg <;> cases col
        all_goals
          simp [BLayer.createPortion, hf, hb, hc] at h
        all_goals
          obtain ⟨rfl, -⟩ := h
        all_goals
          exact ⟨buffer, _, rfl, rfl, rfl, rfl⟩

/-- The layout invariant holds after any successful `createPortion`
sequence (generalized over the starting layer). -/
theorem runCreates_portionsOk : ∀ (ops : List CreateOp) (L L' : BLayer),
    runCreates L ops = .ok L' →
    (∀ b, L.buffer = some b → PortionsOk L.portions b.lenPositions) →
    ∀ b', L'.buffer = some b' → PortionsOk L'.portions b'.lenPositions
  | [], L, L', h => by
    simp [runCreates] at h
    subst h
    exact fun hInv => hInv
  | op :: ops, L, L', h => by
    intro hInv b' hb'
    rw [runCreates] at h
    cases hstep : L.createPortion op with
    | error e => rw [hstep] at h; exact absurd h (by simp)
    | ok res =>
      rw [hstep] at h
      obtain ⟨b, bMid, hbL, hbMid, hlen, hports⟩ :=
        createPortion_portions L op res.1 res.2 (by rw [hstep])
      refine runCreates_portionsOk ops res.1 L' h ?_ b' hb'
      intro bm hbm
      rw [hbMid] at hbm
      cases hbm
      rw [hports, hlen]
      exact portionsOk_append _ _ _ (hInv b hbL)

/-- `finalize` never changes the portion list. -/
theorem finalize_portions (L : BLayer) : (L.finalize).portions = L.portions := by
  unfold BLayer.finalize
  split
  · rfl
  · split <;> rfl

/-- A `runCreates` success keeps an arena present. -/
theorem runCreates_buffer_some : ∀ (ops : List CreateOp) (L L' : BLayer),
    runCreates L ops = .ok L' → (∃ b, L.buffer = some b) → ∃ b', L'.buffer = some b'
  | [], L, L', h => by
    simp [runCreates] at h
    subst h
    exact fun hb => hb
  | op :: ops, L, L', h => by
    intro _
    rw [runCreates] at h
    cases hstep : L.createPortion op with
    | error e => rw [hstep] at h; exact absurd h (by simp)
    | ok res =>
      rw [hstep] at h
      obtain ⟨b, bMid, -, hbMid, -, -⟩ :=
        createPortion_portions L op res.1 res.2 (by rw [hstep])
      exact runCreates_buffer_some ops res.1 L' h ⟨bMid, hbMid⟩

/-- Inversion of a successful `setFlags`: it replaces only the flags
buffer's store, by one `setData` of the portion's `numVerts * 4` bytes
at byte offset `vertexBase * 4`. -/
theorem setFlags_ok (L : BLayer) (pid flags : ℕ) (L' : BLayer)
    (h : L.setFlags pid flags = .ok L') :
    ∃ p gb, L.portions.get? pid = some p ∧ L.flagsBuf = some gb ∧
      L' = { L with flagsBuf := some ⟨gb.len,
        setData gb.data
          (pat4 (flagByte flags RENDER_FLAGS_VISIBLE) (flagByte flags RENDER_FLAGS_GHOSTED)
            (flagByte flags RENDER_FLAGS_HIGHLIGHTED) (flagByte flags RENDER_FLAGS_CLIPPABLE))
          (p.1 * 4) (p.2 * 4)⟩ } := by
  cases hf : L.finalized with
  | false => simp [BLayer.setFlags, hf] at h
  | true =>
    unfold BLayer.setFlags at h
    simp only [hf, if_true] at h
    cases hp : L.portions.get? pid <;> cases hg : L.flagsBuf <;> rw [hp, hg] at h <;>
      simp only [Except.ok.injEq, reduceCtorEq] at h
    exact ⟨_, _, rfl, rfl, h.symm⟩

/-- Inversion of a successful `setColor`: it replaces only the colors
buffer's store, by one `setData` of the portion's `numVerts * 4` bytes
at byte offset `vertexBase * 4`. -/
theorem setColor_ok (L : BLayer) (pid : ℕ) (c : ℕ × ℕ × ℕ × ℕ) (L' : BLayer)
    (h : L.setColor pid c = .ok L') :
    ∃ p gb, L.portions.get? pid = some p ∧ L.colorsBuf = some gb ∧
      L' = { L with colorsBuf := some ⟨gb.len,
        setData gb.data (pat4 c.1 c.2.1 c.2.2.1 c.2.2.2) (p.1 * 4) (p.2 * 4)⟩ } := by
  cases hf : L.finalized with
  | false => simp [BLayer.setColor, hf] at h
  | true =>
    unfold BLayer.setColor at h
    simp only [hf, if_true] at h
    cases hp : L.portions.get? pid <;> cases hg : L.colorsBuf <;> rw [hp, hg] at h <;>
      simp only [Except.ok.injEq, reduceCtorEq] at h
    exact ⟨_, _, rfl, rfl, h.symm⟩

/-- C5: portion isolation.  For a layer built by any successful
`createPortion` sequence, then finalized, mutating portion `A` with
`setFlags` or `setColor` leaves every byte of any other portion `B`'s
sub-range `[vertexBase_B * 4, (vertexBase_B + vertexCount_B) * 4)` of
the corresponding GPU buffer unchanged. -/
theorem c5_portion_isolation (mv : ℕ) (ops : List CreateOp) (L : BLayer)
    (h : runCreates (BLayer.init mv) ops = .ok L)
    (A B : ℕ) (pA pB : ℕ × ℕ)
    (hA : L.portions.get? A = some pA) (hB : L.portions.get? B = some pB)
    (hAB : A ≠ B) (f : ℕ) (c : ℕ × ℕ × ℕ × ℕ) (j : ℕ)
    (hj1 : pB.1 * 4 ≤ j) (hj2 : j < (pB.1 + pB.2) * 4) :
    (∀ L', (L.finalize).setFlags A f = .ok L' →
      (L'.flagsBuf.map fun gb => gb.data j)
        = ((L.finalize).flagsBuf.map fun gb => gb.data j)) ∧
    (∀ L'', (L.finalize).setColor A c = .ok L'' →
      (L''.colorsBuf.map fun gb => gb.data j)
        = ((L.finalize).colorsBuf.map fun gb => gb.data j)) := by
  obtain ⟨b, hbL⟩ := runCreates_buffer_some ops _ L h ⟨_, rfl⟩
  have hOk : PortionsOk L.portions b.lenPositions := by
    refine runCreates_portionsOk ops _ L h ?_ b hbL
    intro b0 hb0
    exact portionsOk_nil _
  have hdisj := portionsOk_disjoint L.portions b.lenPositions hOk A B pA pB hA hB hAB
  have houtside : ¬ (pA.1 * 4 ≤ j ∧ j < pA.1 * 4 + pA.2 * 4) := by
    rcases hdisj with hd | hd
    · rintro ⟨-, hj⟩
      omega
    · rintro ⟨hj, -⟩
      omega
  constructor
  · intro L' hS
    obtain ⟨p, gb, hp, hgb, rfl⟩ := setFlags_ok _ A f L' hS
    rw [finalize_portions] at hp
    rw [hA] at hp
    cases hp
    simp [hgb, setData, houtside]
  · intro L'' hS
    obtain ⟨p, gb, hp, hgb, rfl⟩ := setColor_ok _ A c L'' hS
    rw [finalize_portions] at hp
    rw [hA] at hp
    cases hp
    simp [hgb, setData, houtside]

/-- The two create ops of the C5 witness run: two 1-vertex portions
with flags and colors. -/
def c5ops : List CreateOp :=
  [{ positions := [0, 0, 0], normals := none, indices := none, edgeIndices := none
     flags := some 1, color := some (10, 20, 30, 255), pickColor := (0, 0, 0, 1) },
   { positions := [1, 1, 1], normals := none, indices := none, edgeIndices := none
     flags := some 1, color := some (40, 50, 60, 255), pickColor := (0, 0, 0, 2) }]

/-- The C5 witness layer: portions `[(0, 1), (1, 1)]`. -/
def c5L : BLayer :=
  match runCreates (BLayer.init 10) c5ops with
  | .ok L => L
  | .error _ => BLayer.init 0

/-- The C5 witness layer after `setFlags(0, 0)` on the finalized layer. -/
def c5Lf : BLayer :=
  match (c5L.finalize).setFlags 0 0 with
  | .ok L => L
  | .error _ => BLayer.init 0

/-- The C5 witness layer after `setColor(0, (9,9,9,9))` on the finalized
layer. -/
def c5Lc : BLayer :=
  match (c5L.finalize).setColor 0 (9, 9, 9, 9) with
  | .ok L => L
  | .error _ => BLayer.init 0

/-- Witness for C5 at a concrete input: with two 1-vertex portions,
mutating portion 0 leaves byte 5 — inside portion 1's sub-range
`[4, 8)` — of the flags and colors buffers unchanged. -/
theorem c5_portion_isolation_witness :
    (c5Lf.flagsBuf.map fun gb => gb.data 5)
      = ((c5L.finalize).flagsBuf.map fun gb => gb.data 5) ∧
    (c5Lc.colorsBuf.map fun gb => gb.data 5)
      = ((c5L.finalize).colorsBuf.map fun gb => gb.data 5) := by
  have hmain := c5_portion_isolation 10 c5ops c5L rfl 0 1 (0, 1) (1, 1) rfl rfl
    (by decide) 0 (9, 9, 9, 9) 5 (by decide) (by decide)
  exact ⟨hmain.1 c5Lf rfl, hmain.2 c5Lc rfl⟩

/-! ## Claim C6 — quantization round-trip bound -/

/-- C6: counterexample.  The batching-layer codec uses `maxInt = 65525`,
so its quantization step is `(max-min)/65525`, coarser than the claimed
bound `(max-min)/65535`.  With bounds `[0, 65525]` and `p = 0.9999` the
quantized value is `⌊0.9999⌋ = 0`, the decoded value is `0`, and the
error `0.9999` exceeds `65525/65535 ≈ 0.99985`. -/
theorem c6_bound_65535_fails :
    ¬ (|decodeAxis65525 0 65525 (quantizeAxis65525 0 65525 (9999 / 10000))
          - 9999 / 10000| ≤ (65525 - 0) / 65535) := by
  have hq : quantizeAxis65525 0 65525 (9999 / 10000) = 0 := by
    rw [quantizeAxis65525]
    apply Int.floor_eq_iff.mpr
    norm_num
  rw [hq, decodeAxis65525, not_le]
  rw [show ((0 : ℤ) : ℚ) * ((65525 : ℚ) / 65525) + 0 - 9999 / 10000
        = -(9999 / 10000) by norm_num]
  rw [abs_neg, abs_of_nonneg (by norm_num)]
  norm_num

/-- C6 (amended): the round-trip error is within one quantization step
of the respective codec: strictly less than `(max-min)/65525` for the
batching layer's `quantizePositions` (`maxInt = 65525`), and at most the
claimed `(max-min)/65535` for Geometry.js's `quantizeVec3`
(`maxInt = 65535`). -/
theorem c6_quantization_round_trip (mn mx p : ℚ)
    (hlo : mn ≤ p) (hhi : p ≤ mx) (hw : mn < mx) :
    |decodeAxis65525 mn (mx - mn) (quantizeAxis65525 mn (mx - mn) p) - p|
        < (mx - mn) / 65525 ∧
      |decodeAxis65535 mn (mx - mn) (quantizeAxis65535 mn (mx - mn) p) - p|
        ≤ (mx - mn) / 65535 := by
  have hw' : (0 : ℚ) < mx - mn := by linarith
  constructor
  · obtain ⟨e1, e2⟩ := floor_quant_error mn (mx - mn) p 65525 (by norm_num) hw'
    have heq : decodeAxis65525 mn (mx - mn) (quantizeAxis65525 mn (mx - mn) p) - p
        = -((p - mn) - (⌊(p - mn) * (65525 / (mx - mn))⌋ : ℚ) * ((mx - mn) / 65525)) := by
      rw [decodeAxis65525, quantizeAxis65525]
      ring
    rw [heq, abs_neg, abs_of_nonneg e1]
    exact e2
  · obtain ⟨e1, e2⟩ := floor_quant_error mn (mx - mn) p 65535 (by norm_num) hw'
    have heq : decodeAxis65535 mn (mx - mn) (quantizeAxis65535 mn (mx - mn) p) - p
        = -((p - mn) - (⌊(p - mn) * (65535 / (mx - mn))⌋ : ℚ) * ((mx - mn) / 65535)) := by
      rw [decodeAxis65535, quantizeAxis65535]
      ring
    rw [heq, abs_neg, abs_of_nonneg e1]
    exact le_of_lt e2

/-- Witness for the amended C6 theorem at bounds `[0, 1]`, `p = 1/2`. -/
theorem c6_quantization_round_trip_witness :
    |decodeAxis65525 0 (1 - 0) (quantizeAxis65525 0 (1 - 0) (1 / 2)) - 1 / 2|
        < (1 - 0) / 65525 ∧
      |decodeAxis65535 0 (1 - 0) (quantizeAxis65535 0 (1 - 0) (1 / 2)) - 1 / 2|
        ≤ (1 - 0) / 65535 :=
  c6_quantization_round_trip 0 1 (1 / 2) (by norm_num) (by norm_num) (by norm_num)

/-! ## Claim C7 — degenerate quantization extents

The degenerate-axis path of `quantizePositions` runs through IEEE
special values: `65525 / 0 = +Infinity`, `0 * Infinity = NaN`,
`Math.floor(NaN) = NaN`, and the `Uint16Array` store applies ToUint16,
which maps NaN to 0.  We embed the JS double for this path explicitly
(finite arithmetic on it is exact — no rounding is involved here). -/

/-- A JS number as needed by the degenerate-extent path: finite (exact
rational), one of the signed infinities, or NaN. -/
inductive JSVal where
  | fin (q : ℚ)
  | inf
  | ninf
  | nan
deriving DecidableEq

/-- JS subtraction on `JSVal` (IEEE rules for the special values). -/
def jsSub : JSVal → JSVal → JSVal
  | .nan, _ => .nan
  | _, .nan => .nan
  | .fin a, .fin b => .fin (a - b)
  | .inf, .inf => .nan
  | .inf, _ => .inf
  | .ninf, .ninf => .nan
  | .ninf, _ => .ninf
  | .fin _, .inf => .ninf
  | .fin _, .ninf => .inf

/-- JS multiplication on `JSVal` (IEEE rules: `0 * ±Infinity = NaN`). -/
def jsMul : JSVal → JSVal → JSVal
  | .nan, _ => .nan
  | _, .nan => .nan
  | .fin a, .fin b => .fin (a * b)
  | .fin a, .inf => if 0 < a then .inf else if a < 0 then .ninf else .nan
  | .fin a, .ninf => if 0 < a then .ninf else if a < 0 then .inf else .nan
  | .inf, .fin b => if 0 < b then .inf else if b < 0 then .ninf else .nan
  | .ninf, .fin b => if 0 < b then .ninf else if b < 0 then .inf else .nan
  | .inf, .inf => .inf
  | .inf, .ninf => .ninf
  | .ninf, .inf => .ninf
  | .ninf, .ninf => .inf

/-- JS division on `JSVal` (IEEE rules: a nonzero finite dividend over
`0` gives a signed infinity, `0 / 0` gives NaN). -/
def jsDiv : JSVal → JSVal → JSVal
  | .nan, _ => .nan
  | _, .nan => .nan
  | .fin a, .fin b =>
      if b = 0 then (if 0 < a then .inf else if a < 0 then .ninf else .nan)
      else .fin (a / b)
  | .fin _, .inf => .fin 0
  | .fin _, .ninf => .fin 0
  | .inf, .fin b => if b < 0 then .ninf else .inf
  | .ninf, .fin b => if b < 0 then .inf else .ninf
  | .inf, _ => .nan
  | .ninf, _ => .nan

/-- `Math.floor` on `JSVal` (NaN and the infinities pass through). -/
def jsFloor : JSVal → JSVal
  | .fin q => .fin (⌊q⌋ : ℚ)
  | .inf => .inf
  | .ninf => .ninf
  | .nan => .nan

/-- Truncation toward zero of a rational (ECMAScript `truncate`). -/
def ratTrunc (q : ℚ) : ℤ :=
  if 0 ≤ q then ⌊q⌋ else ⌈q⌉

/-- ECMAScript ToUint16, applied by a `Uint16Array` store: NaN and the
infinities map to 0; a finite value is truncated toward zero and taken
modulo 2^16 into `[0, 65536)`. -/
def toUint16 : JSVal → ℕ
  | .fin q => ((ratTrunc q).emod 65536).toNat
  | .inf => 0
  | .ninf => 0
  | .nan => 0

/-- The per-axis multiplier of `quantizePositions` in JS arithmetic:
`maxInt / wid` with `maxInt = 65525` and `wid = aabb[axis+3] - aabb[axis]`. -/
def jsAxisMultiplier (mn mx : ℚ) : JSVal :=
  jsDiv (.fin 65525) (jsSub (.fin mx) (.fin mn))

/-- One quantized component in JS arithmetic:
`Math.floor((p - mn) * multiplier)`. -/
def jsQuantizeAxisRaw (mn mx p : ℚ) : JSVal :=
  jsFloor (jsMul (jsSub (.fin p) (.fin mn)) (jsAxisMultiplier mn mx))

/-- The value the `Uint16Array` store records for one quantized
component. -/
def jsQuantizeAxisStored (mn mx p : ℚ) : ℕ :=
  toUint16 (jsQuantizeAxisRaw mn mx p)

/-- C7: counterexample.  On a degenerate axis (`min = max = 5`) there is
no defensive handling: the multiplier evaluates to `+Infinity` — not to
`0`, and the axis is not skipped — and the quantized component
`Math.floor((5 - 5) * Infinity)` evaluates to NaN, not to a finite
integer. -/
theorem c7_no_defensive_handling :
    jsAxisMultiplier 5 5 = JSVal.inf ∧
    JSVal.inf ≠ JSVal.fin 0 ∧
    jsQuantizeAxisRaw 5 5 5 = JSVal.nan := by
  refine ⟨?_, by simp, ?_⟩
  · rw [jsAxisMultiplier, jsSub, jsDiv]
    norm_num
  · rw [jsQuantizeAxisRaw, jsAxisMultiplier]
    norm_num [jsSub, jsDiv, jsMul, jsFloor]

/-- C7 (amended): for every degenerate axis (`min = max = m`, so the
only coordinate on the axis is `m`), the multiplier is `+Infinity` (no
exception and no division-by-zero error is raised, but no defensive
handling occurs either), the raw quantized component is NaN, and the
`Uint16Array` store coerces it to the finite integer 0. -/
theorem c7_degenerate_axis_stores_zero (m : ℚ) :
    jsAxisMultiplier m m = JSVal.inf ∧
    jsQuantizeAxisRaw m m m = JSVal.nan ∧
    jsQuantizeAxisStored m m m = 0 := by
  have h1 : jsAxisMultiplier m m = JSVal.inf := by
    rw [jsAxisMultiplier, jsSub, jsDiv]
    norm_num
  refine ⟨h1, ?_, ?_⟩
  · rw [jsQuantizeAxisRaw, h1, jsSub]
    norm_num [jsMul, jsFloor]
  · rw [jsQuantizeAxisStored, jsQuantizeAxisRaw, h1, jsSub]
    norm_num [jsMul, jsFloor, toUint16]

/-! ## Claim C8 — oct-encode/decode fidelity

`octEncodeVec3`/`octDecodeVec2`/`dot` (batchingLayer.js lines 723–760;
Geometry.js has the same helpers).  The encoder stores the result in an
`Int8Array`, so each component is wrapped into `[-128, 128)`. -/

/-- `Int8Array` coercion: wrap an integer into `[-128, 128)`. -/
def toInt8 (n : ℤ) : ℤ :=
  ((n + 128) % 256) - 128

/-- `octEncodeVec3(p, xfunc, yfunc)` (lines 723–738): project onto the
octahedron (`x = p0 / (|p0|+|p1|+|p2|)`, …), fold the lower hemisphere
(`z < 0`) into the upper square using the original `x`, `y` (the source
computes both temporaries before reassigning), then round
`c * 127.5 + (c < 0 ? -1 : 0)` with floor or ceil per axis
(`true` = ceil) and store as signed 8-bit. -/
def octEncodeVec3 (p : ℚ × ℚ × ℚ) (xceil yceil : Bool) : ℤ × ℤ :=
  let s := |p.1| + |p.2.1| + |p.2.2|
  let x := p.1 / s
  let y := p.2.1 / s
  let xy :=
    if p.2.2 < 0 then
      ((1 - |y|) * (if 0 ≤ x then 1 else -1), (1 - |x|) * (if 0 ≤ y then 1 else -1))
    else (x, y)
  let ex := xy.1 * (255 / 2) + (if xy.1 < 0 then -1 else 0)
  let ey := xy.2 * (255 / 2) + (if xy.2 < 0 then -1 else 0)
  (toInt8 (if xceil then ⌈ex⌉ else ⌊ex⌋), toInt8 (if yceil then ⌈ey⌉ else ⌊ey⌋))

/-- `octDecodeVec2(oct)` (lines 740–756) up to the final normalization:
the source divides the result by its Euclidean length, which is
irrational in general, so the cosine statements below use this
unnormalized vector together with its squared norm.  Note that the
source's fold computes the folded `y` from the already-reassigned `x`
(`x` is overwritten on the line before `y` reads `Math.abs(x)`). -/
def octDecodeVec2Unnorm (o : ℤ × ℤ) : ℚ × ℚ × ℚ :=
  let x : ℚ := (o.1 : ℚ) / (if o.1 < 0 then 127 else 128)
  let y : ℚ := (o.2 : ℚ) / (if o.2 < 0 then 127 else 128)
  let z : ℚ := 1 - |x| - |y|
  if z < 0 then
    let x2 := (1 - |y|) * (if 0 ≤ x then 1 else -1)
    let y2 := (1 - |x2|) * (if 0 ≤ y then 1 else -1)
    (x2, y2, z)
  else (x, y, z)

/-- `dot(p, vec3)` (lines 758–760). -/
def dotQ (a b : ℚ × ℚ × ℚ) : ℚ :=
  a.1 * b.1 + a.2.1 * b.2.1 + a.2.2 * b.2.2

/-- Squared Euclidean norm. -/
def normSq (a : ℚ × ℚ × ℚ) : ℚ :=
  a.1 * a.1 + a.2.1 * a.2.1 + a.2.2 * a.2.2

/-- C8: at the unit normal `(0, 0, -1)` every one of the four
floor/ceil rounding candidates decodes to a vector whose cosine
similarity with the original is below 0.98 (the dot product is positive
and its square is below `0.98²` times the squared norm of the decoded
vector, so `cos < 0.98` whichever candidate the four-way search picks).
The encoder maps `(0, 0, -1)` to the corner `(1, 1)` of the oct square,
and the decoder's fold — whose folded `y` is computed from the
already-updated `x` — sends every rounding of that corner about 45
degrees away from `(0, 0, -1)`. -/
theorem c8_oct_fidelity_below_threshold (xc yc : Bool) :
    0 < dotQ (0, 0, -1) (octDecodeVec2Unnorm (octEncodeVec3 (0, 0, -1) xc yc)) ∧
    (dotQ (0, 0, -1) (octDecodeVec2Unnorm (octEncodeVec3 (0, 0, -1) xc yc))) ^ 2 * 2500
      < 2401 * normSq (octDecodeVec2Unnorm (octEncodeVec3 (0, 0, -1) xc yc)) := by
  have hf : (⌊(255 : ℚ) / 2⌋ : ℤ) = 127 := by
    apply Int.floor_eq_iff.mpr
    norm_num
  have hc : (⌈(255 : ℚ) / 2⌉ : ℤ) = 128 := by
    apply Int.ceil_eq_iff.mpr
    norm_num
  have eFF : octEncodeVec3 (0, 0, -1) false false = (127, 127) := by
    simp only [octEncodeVec3]
    norm_num [toInt8, hf]
  have eFT : octEncodeVec3 (0, 0, -1) false true = (127, -128) := by
    simp only [octEncodeVec3]
    norm_num [toInt8, hf, hc]
  have eTF : octEncodeVec3 (0, 0, -1) true false = (-128, 127) := by
    simp only [octEncodeVec3]
    norm_num [toInt8, hf, hc]
  have eTT : octEncodeVec3 (0, 0, -1) true true = (-128, -128) := by
    simp only [octEncodeVec3]
    norm_num [toInt8, hc]
  have a1 : |(127 : ℚ) / 128| = 127 / 128 := by norm_num
  have a2 : |(1 : ℚ) / 128| = 1 / 128 := by norm_num
  have a3 : |(-128 : ℚ) / 127| = 128 / 127 := by norm_num
  have a4 : |(1 : ℚ) / 127| = 1 / 127 := by norm_num
  have a5 : |(128 : ℚ) / 127| = 128 / 127 := by norm_num
  have dFF : octDecodeVec2Unnorm (127, 127) = (1 / 128, 127 / 128, -(63 / 64)) := by
    simp only [octDecodeVec2Unnorm]
    norm_num [a1, a2]
  have dFT : octDecodeVec2Unnorm (127, -128)
      = (-(1 / 127), -(126 / 127), -(16257 / 16256)) := by
    simp only [octDecodeVec2Unnorm]
    norm_num [a1, a3, a4, a5]
  have dTF : octDecodeVec2Unnorm (-128, 127)
      = (-(1 / 128), 127 / 128, -(16257 / 16256)) := by
    simp only [octDecodeVec2Unnorm]
    norm_num [a1, a2, a3, a5]
  have dTT : octDecodeVec2Unnorm (-128, -128)
      = (1 / 127, -(126 / 127), -(129 / 127)) := by
    simp only [octDecodeVec2Unnorm]
    norm_num [a3, a4, a5]
  cases xc <;> cases yc
  · rw [eFF, dFF]
    constructor <;> norm_num [dotQ, normSq]
  · rw [eFT, dFT]
    constructor <;> norm_num [dotQ, normSq]
  · rw [eTF, dTF]
    constructor <;> norm_num [dotQ, normSq]
  · rw [eTT, dTT]
    constructor <;> norm_num [dotQ, normSq]

/-! ## Claim C9 — unknown primitive type at construction -/

/-- The WebGL primitive modes the constructors select among. -/
inductive GLPrimitive where
  | points
  | lines
  | lineLoop
  | lineStrip
  | triangles
  | triangleStrip
  | triangleFan
deriving DecidableEq

/-- The `BatchingLayer` constructor's primitive dispatch
(batchingLayer.js lines 37–66).  The `default:` branch throws; the two
assignments after the `throw` (`primitive = gl.TRIANGLES;
primitiveName = "triangles"`) are dead code and never run, so an unknown
name is fatal. -/
def batchingLayerPrimitive (primitiveName : String) : Except String GLPrimitive :=
  match primitiveName with
  | "points" => .ok .points
  | "lines" => .ok .lines
  | "line-loop" => .ok .lineLoop
  | "line-strip" => .ok .lineStrip
  | "triangles" => .ok .triangles
  | "triangle-strip" => .ok .triangleStrip
  | "triangle-fan" => .ok .triangleFan
  | name =>
    .error ("Unsupported value for 'primitive': '" ++ name ++
      "' - supported values are 'points', 'lines', 'line-loop', 'line-strip', 'triangles', 'triangle-strip' and 'triangle-fan'. Defaulting to 'triangles'.")

/-- `Geometry.init`'s primitive dispatch (Geometry.js lines 203–239):
an unknown name logs an error through the Component error channel and
falls back to `gl.TRIANGLES`; construction continues.  (The default
branch records the raw unknown name in `state.primitiveName`.)  Returns
the chosen primitive mode, the recorded `primitiveName`, and the logged
message, if any. -/
def geometryPrimitive (primitiveName : String) : GLPrimitive × String × Option String :=
  match primitiveName with
  | "points" => (.points, "points", none)
  | "lines" => (.lines, "lines", none)
  | "line-loop" => (.lineLoop, "line-loop", none)
  | "line-strip" => (.lineStrip, "line-strip", none)
  | "triangles" => (.triangles, "triangles", none)
  | "triangle-strip" => (.triangleStrip, "triangle-strip", none)
  | "triangle-fan" => (.triangleFan, "triangle-fan", none)
  | name =>
    (.triangles, name,
      some ("Unsupported value for 'primitive': '" ++ name ++
        "' - supported values are 'points', 'lines', 'line-loop', 'line-strip', 'triangles', 'triangle-strip' and 'triangle-fan'. Defaulting to 'triangles'."))

/-- C9: with the unknown primitive name "quads", `Geometry.init`
recovers (it selects the documented default `triangles` and logs a
warning, construction succeeding), but the `BatchingLayer` constructor
throws — construction fails — even though its own error text ends in
"Defaulting to 'triangles'." and the defaulting assignments sit dead
after the throw. -/
theorem c9_unknown_primitive_fatal_in_batching_layer :
    batchingLayerPrimitive "quads"
      = .error ("Unsupported value for 'primitive': 'quads'" ++
        " - supported values are 'points', 'lines', 'line-loop', 'line-strip', 'triangles', 'triangle-strip' and 'triangle-fan'. Defaulting to 'triangles'.") ∧
    geometryPrimitive "quads"
      = (.triangles, "quads",
          some ("Unsupported value for 'primitive': 'quads'" ++
            " - supported values are 'points', 'lines', 'line-loop', 'line-strip', 'triangles', 'triangle-strip' and 'triangle-fan'. Defaulting to 'triangles'.")) := by
  constructor <;> rfl

end Xeokit
